import Mathlib

/-!
Verification of the chaos-engineering scripts.

Shallow embedding of the Python utilities in `scripts/utils/k8s.py`,
`scripts/utils/validation.py`, `scripts/scheduler.py`, `scripts/chaos-runner.py`
and `scripts/advanced-chaos-runner.py`.

Python strings are modelled as `List Char`; Python `None` as `Option.none`;
raised exceptions as explicit constructors of result types.  Effects on the
cluster (running `kubectl`, reading files) are modelled by passing the outcome
of each external call in explicitly as an environment value.
-/

/-! ### Character classes (ASCII semantics of the Python code) -/

-- Characters removed by Python `str.strip()` with no argument.
def isPySpace (c : Char) : Bool :=
  decide (c.toNat = 32 ∨ c.toNat = 9 ∨ c.toNat = 10 ∨ c.toNat = 13 ∨
          c.toNat = 11 ∨ c.toNat = 12)

-- The class `[a-z0-9]` of the regex in validation.py.
def isLowerAlnum (c : Char) : Bool :=
  decide ((97 ≤ c.toNat ∧ c.toNat ≤ 122) ∨ (48 ≤ c.toNat ∧ c.toNat ≤ 57))

-- The class `[-a-z0-9]` of the regex in validation.py.
def isNameChar (c : Char) : Bool :=
  isLowerAlnum c || decide (c.toNat = 45)

-- An ASCII decimal digit, the `str.isdigit` class restricted to ASCII.
def isDigitChar (c : Char) : Bool :=
  decide (48 ≤ c.toNat ∧ c.toNat ≤ 57)

-- An ASCII uppercase letter.
def isUpperChar (c : Char) : Bool :=
  decide (65 ≤ c.toNat ∧ c.toNat ≤ 90)

/-! ### Python string primitives -/

-- Python `str.strip()`: drop whitespace from both ends.
def pyStrip (s : List Char) : List Char :=
  ((s.dropWhile isPySpace).reverse.dropWhile isPySpace).reverse

-- Python `str.split()` with no argument: words separated by whitespace runs,
-- empty chunks discarded.
def pySplit (s : List Char) : List (List Char) :=
  (s.splitOnP isPySpace).filter (fun w => !w.isEmpty)

-- Python `str.isdigit` (ASCII): non-empty and all digits.
def pyIsDigit (p : List Char) : Bool :=
  !p.isEmpty && p.all isDigitChar

/-! ### validation.py -/

-- K8S_NAME_REGEX = `^[a-z0-9]([-a-z0-9]*[a-z0-9])?$` as a total match on the
-- whole string: head in `[a-z0-9]`, and either nothing follows, or every
-- following character is in `[-a-z0-9]` with the last again in `[a-z0-9]`.
def k8sNameMatch (t : List Char) : Bool :=
  match t with
  | [] => false
  | c :: rest =>
      isLowerAlnum c &&
        (rest.isEmpty || (rest.all isNameChar && isLowerAlnum (rest.getLastD c)))

def K8S_NAME_MAX_LENGTH : Nat := 253

-- validation.py, validate_experiment_name (lines 21-53).
def validate_experiment_name (name : List Char) : Except String (List Char) :=
  if name = [] then
    .error "Experiment name cannot be empty"
  else
    let name := pyStrip name
    if name.length > K8S_NAME_MAX_LENGTH then
      .error "Experiment name too long"
    else if !k8sNameMatch name then
      .error "Experiment name format invalid"
    else
      .ok name

-- validation.py, validate_namespace (lines 56-88); same checks, other texts.
def validate_namespace (ns : List Char) : Except String (List Char) :=
  if ns = [] then
    .error "Namespace cannot be empty"
  else
    let ns := pyStrip ns
    if ns.length > K8S_NAME_MAX_LENGTH then
      .error "Namespace name too long"
    else if !k8sNameMatch ns then
      .error "Namespace format invalid"
    else
      .ok ns

-- True when the Except value is an error, the model of a raised ValueError.
def isErr {ε α : Type} : Except ε α → Bool
  | .error _ => true
  | .ok _ => false

/-! ### Predicates used to state the claims about validation -/

def containsUpper (s : List Char) : Bool := s.any isUpperChar

def containsUnderscore (s : List Char) : Bool := s.any (fun c => decide (c.toNat = 95))

-- Leading or trailing hyphen of a (non-empty) character list.
def edgeHyphen (t : List Char) : Bool :=
  match t with
  | [] => false
  | c :: rest => c == '-' || (c :: rest).getLastD c == '-'

/-! ### scheduler.py, cron validation -/

-- scheduler.py, ChaosScheduler._validate_cron_schedule (lines 172-189).
def cronFieldOk (p : List Char) : Bool :=
  pyIsDigit p || p == ['*'] || p.contains '/' || p.contains '-' || p.contains ','

def validate_cron_schedule (s : List Char) : Bool :=
  let parts := pySplit s
  parts.length == 5 && parts.all cronFieldOk

/-! ### k8s.py, run_command (lines 31-114)

One call of `subprocess.run` either completes with return code 0 (stdout is
returned), completes with a non-zero code (a failure: with `check=True` this is
a `CalledProcessError`, without it the non-zero-returncode branch; both
branches of the Python code behave identically), or exceeds the wall-clock
timeout (`subprocess.TimeoutExpired`).  The outcome of the attempt numbered
`n` (0-based) is supplied by the environment function. -/

inductive AttemptResult : Type where
  | success (stdout : List Char)
  | failure (stderr : List Char)
  | timedOut
deriving DecidableEq

inductive RunResult : Type where
  | ok (out : List Char)          -- returns stdout.strip()
  | returnedNone                  -- returns None
  | kubernetesError               -- raises KubernetesError
  | timeoutError                  -- raises TimeoutError
deriving DecidableEq

structure RunTrace : Type where
  result : RunResult
  attemptsMade : Nat
  sleeps : List Nat               -- the arguments of time.sleep, in order
deriving DecidableEq

-- The `for attempt in range(retries)` loop, entered at `attempt`.
def runCommandGo (env : Nat → AttemptResult) (check : Bool)
    (retries retry_delay : Nat) (attempt : Nat) : RunTrace :=
  if _h : attempt < retries then
    match env attempt with
    | .success out => ⟨.ok out, 1, []⟩
    | .timedOut =>
        if check then ⟨.timeoutError, 1, []⟩ else ⟨.returnedNone, 1, []⟩
    | .failure _ =>
        if _h2 : attempt < retries - 1 then
          let rest := runCommandGo env check retries retry_delay (attempt + 1)
          ⟨rest.result, rest.attemptsMade + 1, retry_delay * 2 ^ attempt :: rest.sleeps⟩
        else
          if check then ⟨.kubernetesError, 1, []⟩ else ⟨.returnedNone, 1, []⟩
  else
    ⟨.returnedNone, 0, []⟩
termination_by retries - attempt
decreasing_by omega

def run_command (env : Nat → AttemptResult) (check : Bool)
    (retries retry_delay : Nat) : RunTrace :=
  runCommandGo env check retries retry_delay 0

/-! ### k8s.py, wait_for_pods (lines 117-227) -/

structure PodCondition : Type where
  condType : List Char
  condStatus : List Char
deriving DecidableEq

structure PodStatus : Type where
  phase : List Char
  conditions : List PodCondition
deriving DecidableEq

structure Pod : Type where
  status : PodStatus
deriving DecidableEq

-- A pod is counted as ready when its phase is Running and one of its
-- conditions has type Ready with status True (lines 189-203).
def podReady (p : Pod) : Bool :=
  p.status.phase == "Running".data &&
    p.status.conditions.any
      (fun c => c.condType == "Ready".data && c.condStatus == "True".data)

-- Python truthiness of the optional `expected_count` argument: `None` and `0`
-- are both falsy.
def optCountTruthy : Option Nat → Bool
  | none => false
  | some n => !(n == 0)

def optCountVal : Option Nat → Nat
  | none => 0
  | some n => n

inductive PollOutcome : Type where
  | success                        -- the loop returns True
  | keepWaiting                    -- sleep(check_interval) and poll again
deriving DecidableEq

-- One iteration of the polling loop.  The kubectl query outcome is
-- `none` when `run_command(..., check=False)` gave a falsy result (lines
-- 171-175), `some none` when the output failed to parse as JSON (lines
-- 217-219), and `some (some pods)` when it parsed with item list `pods`.
def pollStep (expected : Option Nat)
    (queryResult : Option (Option (List Pod))) : PollOutcome :=
  match queryResult with
  | none => .keepWaiting
  | some none => .keepWaiting
  | some (some pods) =>
      if optCountTruthy expected && !(pods.length == optCountVal expected) then
        .keepWaiting
      else
        let ready_count := (pods.filter podReady).length
        if optCountTruthy expected then
          if ready_count == optCountVal expected then .success else .keepWaiting
        else
          if decide (ready_count > 0) && (ready_count == pods.length) then
            .success
          else
            .keepWaiting

-- The polling loop itself, with the successive kubectl query outcomes given by
-- `results` and the remaining number of polls before the deadline as fuel.
-- Reaching the deadline raises TimeoutError (modelled by `.error ()`).
def wait_for_pods (results : Nat → Option (Option (List Pod)))
    (expected : Option Nat) : Nat → Nat → Except Unit Bool
  | _, 0 => .error ()
  | i, fuel + 1 =>
      if pollStep expected (results i) = .success then .ok true
      else wait_for_pods results expected (i + 1) fuel

/-! ### chaos-runner.py, stop_experiment (lines 105-134)

The function is modelled as the sequence of externally visible actions it
performs.  `run_command(..., check=False)` yields `none` on any failure, so the
reason of a delete failure (for instance, a NotFound from kubectl) is kept in
the environment but is not observable by the function.  The constructor
`raiseStopFailed` is never emitted by the code; it is present so that the
specification sentence about a surfaced StopFailed error can be stated. -/

inductive LogLevel : Type where
  | info
  | warning
  | error
deriving DecidableEq

inductive StopAction : Type where
  | patchEngineStateStop (name ns : List Char)  -- kubectl patch engineState stop
  | deleteEngine (name ns : List Char)          -- kubectl delete chaosengine
  | log (lvl : LogLevel)
  | exitProcess                                 -- sys.exit(1)
  | raiseStopFailed
deriving DecidableEq

structure StopEnv : Type where
  patchOutput : Option (List Char)   -- result of the patch run_command
  deleteOutput : Option (List Char)  -- result of the delete run_command
  deleteNotFound : Bool              -- whether a failed delete was a NotFound
deriving DecidableEq

-- Python truthiness of an Optional[str]: None and the empty string are falsy.
def optStrTruthy : Option (List Char) → Bool
  | none => false
  | some s => !s.isEmpty

def stop_experiment (rawName rawNs : List Char) (env : StopEnv) :
    List StopAction :=
  match validate_experiment_name rawName, validate_namespace rawNs with
  | .ok name, .ok ns =>
      [.log .info, .patchEngineStateStop name ns]
        ++ (if optStrTruthy env.patchOutput then [] else [.log .warning])
        ++ [.deleteEngine name ns]
        ++ (if optStrTruthy env.deleteOutput then [.log .info] else [.log .warning])
  | _, _ => [.log .error, .exitProcess]

/-! ### scheduler.py, _create_cronjob_manifest (lines 191-255) -/

structure ManifestMeta : Type where
  name : List Char
  nsField : List Char
  labels : List (List Char × List Char)
deriving DecidableEq

structure ContainerSpec : Type where
  name : List Char
  image : List Char
  command : List (List Char)
  args : List (List Char)
deriving DecidableEq

structure JobPodSpec : Type where
  serviceAccountName : List Char
  restartPolicy : List Char
  containers : List ContainerSpec
deriving DecidableEq

structure JobPodTemplate : Type where
  metaLabels : List (List Char × List Char)
  podSpec : JobPodSpec
deriving DecidableEq

structure JobSpec : Type where
  template : JobPodTemplate
deriving DecidableEq

structure JobManifest : Type where
  apiVersion : List Char
  kind : List Char
  metadata : ManifestMeta
  spec : JobSpec
deriving DecidableEq

structure CronJobSpec : Type where
  schedule : List Char
  jobTemplate : JobSpec
  successfulJobsHistoryLimit : Nat
  failedJobsHistoryLimit : Nat
  concurrencyPolicy : List Char
deriving DecidableEq

structure CronJobManifest : Type where
  apiVersion : List Char
  kind : List Char
  metadata : ManifestMeta
  spec : CronJobSpec
deriving DecidableEq

-- `experimentYamlDump` stands for `yaml.dump(experiment_yaml)`.
def createCronjobManifest (experiment_name schedule : List Char)
    (experimentYamlDump : List Char) (nsArg : List Char) : CronJobManifest :=
  let cronjob_name := "chaos-".data ++ experiment_name
  let job_template : JobManifest :=
    { apiVersion := "batch/v1".data
      kind := "Job".data
      metadata :=
        { name := cronjob_name ++ "-$(CRONJOB_SCHEDULE_TIME)".data
          nsField := nsArg
          labels := [("app".data, "chaos-scheduler".data),
                     ("experiment".data, experiment_name)] }
      spec :=
        { template :=
            { metaLabels := [("app".data, "chaos-scheduler".data),
                             ("experiment".data, experiment_name)]
              podSpec :=
                { serviceAccountName := "litmus-admin".data
                  restartPolicy := "OnFailure".data
                  containers :=
                    [{ name := "chaos-runner".data
                       image := "bitnami/kubectl:latest".data
                       command := ["/bin/sh".data]
                       args := ["-c".data,
                                "kubectl apply -f - <<EOF\n".data ++
                                  experimentYamlDump ++ "EOF".data] }] } } } }
  { apiVersion := "batch/v1".data
    kind := "CronJob".data
    metadata :=
      { name := cronjob_name
        nsField := nsArg
        labels := [("app".data, "chaos-scheduler".data),
                   ("experiment".data, experiment_name)] }
    spec :=
      { schedule := schedule
        jobTemplate := job_template.spec
        successfulJobsHistoryLimit := 3
        failedJobsHistoryLimit := 3
        concurrencyPolicy := "Forbid".data } }

-- scheduler.py, create_scheduled_experiment (lines 28-107), up to the point
-- where the manifest is built: validation failures and a rejected cron string
-- return early (False); the experiment-file read and the kubectl apply are
-- environment effects that do not alter the manifest, so they are abstracted.
def create_scheduled_experiment (experiment_name schedule nsArg : List Char)
    (experimentYamlDump : List Char) : Option CronJobManifest :=
  match validate_experiment_name experiment_name, validate_namespace nsArg with
  | .ok en, .ok ns =>
      if validate_cron_schedule schedule then
        some (createCronjobManifest en schedule experimentYamlDump ns)
      else
        none
  | _, _ => none

/-! ### advanced-chaos-runner.py, generate_experiment_report (lines 187-245)

Each kubectl sub-query outcome is `none` for a falsy command result, `some
none` for output that fails to parse as JSON, and `some (some items)` for a
parsed item list.  `saveOk` is whether writing the report file succeeds: on a
write failure the Python code returns None (lines 237-243). -/

structure ReportEngine : Type where
  name : List Char                                -- metadata.name
  engineStatusField : Option (List Char)          -- status.engineStatus
  experimentsField : Option (List (List Char))    -- status.experiments
deriving DecidableEq

structure ReportPod : Type where
  phase : List Char                               -- status.phase
deriving DecidableEq

structure ReportEnv : Type where
  enginesQuery : Option (Option (List ReportEngine))
  podsQuery : Option (Option (List ReportPod))
  saveOk : Bool
deriving DecidableEq

structure ExperimentEntry : Type where
  statusField : List Char
  experimentsField : List (List Char)
deriving DecidableEq

structure AppSection : Type where
  total_pods : Nat
  ready_pods : Nat
deriving DecidableEq

structure Report : Type where
  timestamp : List Char
  nsField : List Char
  experiments : List (List Char × ExperimentEntry)
  application : Option AppSection
deriving DecidableEq

def generate_experiment_report (ts nsv : List Char) (env : ReportEnv) :
    Option Report :=
  let report : Report :=
    { timestamp := ts, nsField := nsv, experiments := [], application := none }
  let report :=
    match env.enginesQuery with
    | none => report
    | some none => report
    | some (some engines) =>
        { report with
            experiments :=
              engines.map (fun e =>
                (e.name,
                 { statusField := e.engineStatusField.getD "Unknown".data
                   experimentsField := e.experimentsField.getD [] })) }
  let report :=
    match env.podsQuery with
    | none => report
    | some none => report
    | some (some pods) =>
        { report with
            application :=
              some { total_pods := pods.length
                     ready_pods :=
                       (pods.filter (fun p => p.phase == "Running".data)).length } }
  if env.saveOk then some report else none

/-! ## Helper lemmas -/

lemma dropWhile_eq_self_of {α : Type} {p : α → Bool} {t : List α}
    (h : ∀ c ∈ t, p c = false) : t.dropWhile p = t := by
  cases t with
  | nil => rfl
  | cons a l =>
      rw [List.dropWhile_cons, h a (List.mem_cons_self a l)]
      simp

lemma mem_dropWhile_of_neg {α : Type} {p : α → Bool} {c : α} {l : List α}
    (hc : p c = false) (h : c ∈ l) : c ∈ l.dropWhile p := by
  induction l with
  | nil => cases h
  | cons a t ih =>
      rw [List.dropWhile_cons]
      by_cases ha : p a = true
      · rcases List.mem_cons.mp h with rfl | ht
        · rw [hc] at ha; cases ha
        · simpa [ha] using ih ht
      · rw [Bool.not_eq_true] at ha
        simpa [ha] using h

lemma mem_pyStrip {c : Char} {s : List Char} (hc : isPySpace c = false)
    (h : c ∈ s) : c ∈ pyStrip s := by
  unfold pyStrip
  rw [List.mem_reverse]
  exact mem_dropWhile_of_neg hc
    (by rw [List.mem_reverse]; exact mem_dropWhile_of_neg hc h)

lemma pyStrip_eq_self {t : List Char} (h : ∀ c ∈ t, isPySpace c = false) :
    pyStrip t = t := by
  have h1 : t.dropWhile isPySpace = t := dropWhile_eq_self_of h
  have h2 : t.reverse.dropWhile isPySpace = t.reverse :=
    dropWhile_eq_self_of (fun c hc => h c (List.mem_reverse.mp hc))
  unfold pyStrip
  rw [h1, h2, List.reverse_reverse]

lemma k8sNameMatch_all_nameChar {t : List Char} (h : k8sNameMatch t = true) :
    ∀ c ∈ t, isNameChar c = true := by
  match t with
  | [] => simp [k8sNameMatch] at h
  | c :: rest =>
      unfold k8sNameMatch at h
      rw [Bool.and_eq_true] at h
      obtain ⟨h1, h2⟩ := h
      intro d hd
      rcases List.mem_cons.mp hd with rfl | hdr
      · simp [isNameChar, h1]
      · rw [Bool.or_eq_true] at h2
        rcases h2 with hemp | h2
        · rw [List.isEmpty_iff] at hemp
          subst hemp
          cases hdr
        · rw [Bool.and_eq_true] at h2
          exact List.all_eq_true.mp h2.1 d hdr

lemma upperChar_not_nameChar {c : Char} (h : isUpperChar c = true) :
    isNameChar c = false := by
  simp [isUpperChar, isNameChar, isLowerAlnum] at *
  omega

lemma underscore_not_nameChar {c : Char} (h : c.toNat = 95) :
    isNameChar c = false := by
  simp [isNameChar, isLowerAlnum, h]

lemma upperChar_not_space {c : Char} (h : isUpperChar c = true) :
    isPySpace c = false := by
  simp [isUpperChar, isPySpace] at *
  omega

lemma underscore_not_space {c : Char} (h : c.toNat = 95) :
    isPySpace c = false := by
  simp [isPySpace, h]

lemma nameChar_not_space {c : Char} (h : isNameChar c = true) :
    isPySpace c = false := by
  simp [isNameChar, isLowerAlnum, isPySpace] at *
  omega

lemma k8sNameMatch_no_edgeHyphen {t : List Char} (h : k8sNameMatch t = true) :
    edgeHyphen t = false := by
  match t with
  | [] => rfl
  | c :: rest =>
      unfold k8sNameMatch at h
      rw [Bool.and_eq_true] at h
      obtain ⟨h1, h2⟩ := h
      have hcd : (c == '-') = false := by
        cases hcd2 : (c == '-') with
        | false => rfl
        | true =>
            rw [beq_iff_eq] at hcd2
            subst hcd2
            simp [isLowerAlnum] at h1
      show (c == '-' || (c :: rest).getLastD c == '-') = false
      rw [List.getLastD_cons, hcd, Bool.false_or]
      cases rest with
      | nil => simpa using hcd
      | cons r rs =>
          rw [Bool.or_eq_true] at h2
          rcases h2 with hemp | h2
          · simp at hemp
          · rw [Bool.and_eq_true] at h2
            have hla := h2.2
            cases hlast : ((r :: rs).getLastD c == '-') with
            | false => rfl
            | true =>
                rw [beq_iff_eq] at hlast
                rw [hlast] at hla
                simp [isLowerAlnum] at hla

lemma badName_no_match {s : List Char}
    (h : containsUpper s = true ∨ containsUnderscore s = true ∨
      edgeHyphen (pyStrip s) = true) :
    k8sNameMatch (pyStrip s) = false := by
  by_contra hm
  rw [Bool.not_eq_false] at hm
  rcases h with h | h | h
  · unfold containsUpper at h
    obtain ⟨c, hcs, hcu⟩ := List.any_eq_true.mp h
    have hmem := mem_pyStrip (upperChar_not_space hcu) hcs
    have hn := k8sNameMatch_all_nameChar hm c hmem
    rw [upperChar_not_nameChar hcu] at hn
    cases hn
  · unfold containsUnderscore at h
    obtain ⟨c, hcs, hcu⟩ := List.any_eq_true.mp h
    rw [decide_eq_true_eq] at hcu
    have hmem := mem_pyStrip (underscore_not_space hcu) hcs
    have hn := k8sNameMatch_all_nameChar hm c hmem
    rw [underscore_not_nameChar hcu] at hn
    cases hn
  · rw [k8sNameMatch_no_edgeHyphen hm] at h
    cases h

/-! ## Claims about validation -/

/-- C5: every string containing an uppercase letter, an underscore, or a
leading or trailing hyphen after trimming is rejected by both
`validate_experiment_name` and `validate_namespace` with a raised ValueError
(an `Except.error` in this model). -/
theorem validate_rejects_bad_names (s : List Char)
    (h : containsUpper s = true ∨ containsUnderscore s = true ∨
      edgeHyphen (pyStrip s) = true) :
    isErr (validate_experiment_name s) = true ∧
      isErr (validate_namespace s) = true := by
  have hm := badName_no_match h
  constructor
  · unfold validate_experiment_name
    by_cases h0 : s = []
    · simp [h0, isErr]
    · by_cases hl : (pyStrip s).length > K8S_NAME_MAX_LENGTH
      · simp [h0, hl, isErr]
      · simp [h0, hl, hm, isErr]
  · unfold validate_namespace
    by_cases h0 : s = []
    · simp [h0, isErr]
    · by_cases hl : (pyStrip s).length > K8S_NAME_MAX_LENGTH
      · simp [h0, hl, isErr]
      · simp [h0, hl, hm, isErr]

/-- Witness for C5 at the concrete input "My-App". -/
theorem validate_rejects_bad_names_witness :
    (containsUpper "My-App".data = true ∨
      containsUnderscore "My-App".data = true ∨
      edgeHyphen (pyStrip "My-App".data) = true) ∧
    (isErr (validate_experiment_name "My-App".data) = true ∧
      isErr (validate_namespace "My-App".data) = true) :=
  ⟨Or.inl (by decide), validate_rejects_bad_names _ (Or.inl (by decide))⟩

/-- C6: every string whose trimmed form is non-empty, of length at most 253 and
matching the kubernetes name regex is accepted, the trimmed string is returned
unchanged, and validation is idempotent on the returned value. -/
theorem validate_accepts_and_idempotent (s : List Char)
    (h1 : pyStrip s ≠ [])
    (h2 : (pyStrip s).length ≤ 253)
    (h3 : k8sNameMatch (pyStrip s) = true) :
    validate_experiment_name s = .ok (pyStrip s) ∧
      validate_experiment_name (pyStrip s) = .ok (pyStrip s) := by
  have h0 : s ≠ [] := by
    intro hs
    subst hs
    exact h1 rfl
  have hl : ¬ (pyStrip s).length > K8S_NAME_MAX_LENGTH := by
    unfold K8S_NAME_MAX_LENGTH
    omega
  have hstrip : pyStrip (pyStrip s) = pyStrip s :=
    pyStrip_eq_self (fun c hc => nameChar_not_space (k8sNameMatch_all_nameChar h3 c hc))
  constructor
  · unfold validate_experiment_name
    simp [h0, hl, h3]
  · unfold validate_experiment_name
    rw [hstrip]
    simp [h1, hl, h3]

/-- Witness for C6 at the concrete input " my-app ". -/
theorem validate_accepts_and_idempotent_witness :
    (pyStrip " my-app ".data ≠ [] ∧
      (pyStrip " my-app ".data).length ≤ 253 ∧
      k8sNameMatch (pyStrip " my-app ".data) = true) ∧
    (validate_experiment_name " my-app ".data = .ok (pyStrip " my-app ".data) ∧
      validate_experiment_name (pyStrip " my-app ".data) =
        .ok (pyStrip " my-app ".data)) :=
  ⟨⟨by decide, by decide, by decide⟩,
    validate_accepts_and_idempotent _ (by decide) (by decide) (by decide)⟩

/-! ## Claim about the cron-schedule validator -/

/-- C8: the cron validator accepts a string exactly when it splits into five
whitespace-separated fields, each of which is all digits, equal to "*", or
containing one of the characters slash, hyphen, comma; no semantic range check
is made, so "0 99 * * *" with 99 in the hour field is accepted. -/
theorem cron_validator_shape (s : List Char) :
    (validate_cron_schedule s = true ↔
      ((pySplit s).length = 5 ∧
        ∀ p ∈ pySplit s,
          pyIsDigit p = true ∨ p = ['*'] ∨ p.contains '/' = true ∨
            p.contains '-' = true ∨ p.contains ',' = true)) ∧
    validate_cron_schedule "0 99 * * *".data = true := by
  constructor
  · unfold validate_cron_schedule
    simp only [Bool.and_eq_true, beq_iff_eq, List.all_eq_true, cronFieldOk,
      Bool.or_eq_true]
    constructor
    · rintro ⟨hl, hall⟩
      exact ⟨hl, fun p hp => by have := hall p hp; tauto⟩
    · rintro ⟨hl, hall⟩
      exact ⟨hl, fun p hp => by have := hall p hp; tauto⟩
  · decide

/-! ## Claims about the pod-polling loop -/

-- A pod that is Running with a Ready=True condition.
def readyPodEx : Pod :=
  ⟨⟨"Running".data, [⟨"Ready".data, "True".data⟩]⟩⟩

-- A pod that is Pending with no conditions.
def pendingPodEx : Pod :=
  ⟨⟨"Pending".data, []⟩⟩

/-- C2 counterexample: with expected_count 1 and two listed pods of which
exactly one is ready, the ready count equals expected_count, yet the poll does
not succeed, because the code first requires the listed pod count to equal
expected_count (k8s.py lines 180-185). -/
theorem pollStep_ready_equal_not_sufficient :
    (([readyPodEx, pendingPodEx].filter podReady).length = 1) ∧
      pollStep (some 1) (some (some [readyPodEx, pendingPodEx])) ≠
        PollOutcome.success := by
  decide

/-- C2 amended: a pod counts as ready iff its phase is Running and it has a
Ready condition with status True; for a positive expected_count the poll
succeeds exactly when the listed pod count equals expected_count and the ready
count equals expected_count; without expected_count it succeeds exactly when
the ready count equals the listed count and is positive. -/
theorem pollStep_characterization (n : Nat) (pods : List Pod) (p : Pod)
    (hn : 0 < n) :
    (podReady p = true ↔
      (p.status.phase = "Running".data ∧
        ∃ c ∈ p.status.conditions,
          c.condType = "Ready".data ∧ c.condStatus = "True".data)) ∧
    (pollStep (some n) (some (some pods)) = PollOutcome.success ↔
      (pods.length = n ∧ (pods.filter podReady).length = n)) ∧
    (pollStep none (some (some pods)) = PollOutcome.success ↔
      ((pods.filter podReady).length = pods.length ∧
        0 < (pods.filter podReady).length)) := by
  have ht : optCountTruthy (some n) = true := by
    simp [optCountTruthy]
    omega
  have hn' : n ≠ 0 := by omega
  refine ⟨?_, ?_, ?_⟩
  · simp [podReady, List.any_eq_true]
  · by_cases hpl : pods.length = n
    · by_cases hr : (pods.filter podReady).length = n
      · simp [pollStep, optCountTruthy, optCountVal, hn', hpl, hr]
      · simp [pollStep, optCountTruthy, optCountVal, hn', hpl, hr]
    · simp [pollStep, optCountTruthy, optCountVal, hn', hpl]
  · by_cases hr : (pods.filter podReady).length = pods.length
    · by_cases hp : 0 < (pods.filter podReady).length
      · simp [pollStep, optCountTruthy, hr, hp, List.length_pos]
      · simp [pollStep, optCountTruthy, hr, hp, List.length_pos]
    · simp [pollStep, optCountTruthy, hr]

/-- Witness for the amended C2 at expected_count 1 and one ready pod. -/
theorem pollStep_characterization_witness :
    (0 < 1) ∧
    ((podReady readyPodEx = true ↔
      (readyPodEx.status.phase = "Running".data ∧
        ∃ c ∈ readyPodEx.status.conditions,
          c.condType = "Ready".data ∧ c.condStatus = "True".data)) ∧
    (pollStep (some 1) (some (some [readyPodEx])) = PollOutcome.success ↔
      ([readyPodEx].length = 1 ∧ ([readyPodEx].filter podReady).length = 1)) ∧
    (pollStep none (some (some [readyPodEx])) = PollOutcome.success ↔
      (([readyPodEx].filter podReady).length = [readyPodEx].length ∧
        0 < ([readyPodEx].filter podReady).length))) :=
  ⟨by decide, pollStep_characterization 1 [readyPodEx] readyPodEx (by decide)⟩

lemma pollStep_some_zero (r : Option (Option (List Pod))) :
    pollStep (some 0) r = pollStep none r := by
  cases r with
  | none => rfl
  | some o =>
      cases o with
      | none => rfl
      | some pods => rfl

/-- C10: because the code tests expected_count for truthiness, passing
expected_count 0 to the polling loop behaves exactly as omitting it. -/
theorem wait_for_pods_zero_expected (results : Nat → Option (Option (List Pod)))
    (i fuel : Nat) :
    wait_for_pods results (some 0) i fuel = wait_for_pods results none i fuel := by
  induction fuel generalizing i with
  | zero => rfl
  | succ f ih =>
      simp only [wait_for_pods, pollStep_some_zero]
      split
      · rfl
      · exact ih (i + 1)

/-! ## Claims about run_command -/

lemma runCommandGo_persistent_aux (errs : Nat → List Char) (rd : Nat) :
    ∀ (m attempt : Nat),
    runCommandGo (fun n => .failure (errs n)) true (attempt + m + 1) rd attempt =
      ⟨.kubernetesError, m + 1,
        (List.range m).map (fun i => rd * 2 ^ (attempt + i))⟩ := by
  intro m
  induction m with
  | zero =>
      intro attempt
      rw [runCommandGo]
      rw [dif_pos (show attempt < attempt + 0 + 1 by omega)]
      simp only []
      rw [dif_neg (show ¬ attempt < attempt + 0 + 1 - 1 by omega)]
      simp
  | succ k ih =>
      intro attempt
      rw [runCommandGo]
      rw [dif_pos (show attempt < attempt + (k + 1) + 1 by omega)]
      simp only []
      rw [dif_pos (show attempt < attempt + (k + 1) + 1 - 1 by omega)]
      have harg : attempt + (k + 1) + 1 = (attempt + 1) + k + 1 := by omega
      rw [harg, ih (attempt + 1)]
      have hmap : (List.range (k + 1)).map (fun i => rd * 2 ^ (attempt + i)) =
          rd * 2 ^ attempt ::
            (List.range k).map (fun i => rd * 2 ^ (attempt + 1 + i)) := by
        rw [List.range_succ_eq_map, List.map_cons, List.map_map]
        refine congrArg₂ _ (by simp) ?_
        apply List.map_congr_left
        intro i _
        show rd * 2 ^ (attempt + (i + 1)) = rd * 2 ^ (attempt + 1 + i)
        rw [show attempt + (i + 1) = attempt + 1 + i by omega]
      rw [hmap]

/-- C1: a command that fails on every attempt, run with check enabled, is tried
exactly `retries` times with a sleep of retry_delay times 2 to the attempt
number between consecutive attempts, and finally raises KubernetesError. -/
theorem run_command_persistent_failure (errs : Nat → List Char)
    (retries rd : Nat) (h : 1 ≤ retries) :
    run_command (fun n => .failure (errs n)) true retries rd =
      ⟨.kubernetesError, retries,
        (List.range (retries - 1)).map (fun i => rd * 2 ^ i)⟩ := by
  unfold run_command
  obtain ⟨m, rfl⟩ : ∃ m, retries = 0 + m + 1 := ⟨retries - 1, by omega⟩
  have := runCommandGo_persistent_aux errs rd m 0
  simpa using this

/-- Witness for C1: three attempts with retry_delay 1 sleep 1 then 2 seconds,
so the attempts start at t equal 0, 1 and 3, and KubernetesError is raised. -/
theorem run_command_persistent_failure_witness :
    (1 ≤ 3) ∧
    run_command (fun n => .failure ((fun _ => ['e']) n)) true 3 1 =
      ⟨.kubernetesError, 3, (List.range (3 - 1)).map (fun i => 1 * 2 ^ i)⟩ :=
  ⟨by decide, run_command_persistent_failure (fun _ => ['e']) 3 1 (by decide)⟩

lemma runCommandGo_timeout_aux (errs : Nat → List Char) (rd k : Nat) :
    ∀ (m attempt retries : Nat), k = attempt + m → k < retries →
    runCommandGo (fun n => if n < k then .failure (errs n) else .timedOut)
        true retries rd attempt =
      ⟨.timeoutError, m + 1,
        (List.range m).map (fun i => rd * 2 ^ (attempt + i))⟩ := by
  intro m
  induction m with
  | zero =>
      intro attempt retries hk hr
      rw [runCommandGo]
      rw [dif_pos (show attempt < retries by omega)]
      simp only []
      rw [if_neg (show ¬ attempt < k by omega)]
      simp
  | succ j ih =>
      intro attempt retries hk hr
      rw [runCommandGo]
      rw [dif_pos (show attempt < retries by omega)]
      simp only []
      rw [if_pos (show attempt < k by omega)]
      rw [dif_pos (show attempt < retries - 1 by omega)]
      rw [ih (attempt + 1) retries (by omega) hr]
      have hmap : (List.range (j + 1)).map (fun i => rd * 2 ^ (attempt + i)) =
          rd * 2 ^ attempt ::
            (List.range j).map (fun i => rd * 2 ^ (attempt + 1 + i)) := by
        rw [List.range_succ_eq_map, List.map_cons, List.map_map]
        refine congrArg₂ _ (by simp) ?_
        apply List.map_congr_left
        intro i _
        show rd * 2 ^ (attempt + (i + 1)) = rd * 2 ^ (attempt + 1 + i)
        rw [show attempt + (i + 1) = attempt + 1 + i by omega]
      rw [hmap]

/-- C7: when the attempt numbered k times out (after k failed attempts), the
call raises the dedicated TimeoutError at once: exactly k plus 1 attempts are
made even though more retries remained, and this outcome differs from the
KubernetesError of retry exhaustion. -/
theorem run_command_timeout_immediate (errs : Nat → List Char)
    (k retries rd : Nat) (h : k < retries) :
    run_command (fun n => if n < k then .failure (errs n) else .timedOut)
        true retries rd =
      ⟨.timeoutError, k + 1, (List.range k).map (fun i => rd * 2 ^ i)⟩ ∧
    RunResult.timeoutError ≠ RunResult.kubernetesError := by
  constructor
  · unfold run_command
    have := runCommandGo_timeout_aux errs rd k k 0 retries (by omega) h
    simpa using this
  · intro hc
    cases hc

/-- Witness for C7: the first attempt times out with two retries remaining;
only one attempt is made and TimeoutError is raised. -/
theorem run_command_timeout_immediate_witness :
    (0 < 3) ∧
    (run_command (fun n => if n < 0 then .failure ((fun _ => ['e']) n) else .timedOut)
        true 3 1 =
      ⟨.timeoutError, 0 + 1, (List.range 0).map (fun i => 1 * 2 ^ i)⟩ ∧
    RunResult.timeoutError ≠ RunResult.kubernetesError) :=
  ⟨by decide, run_command_timeout_immediate (fun _ => ['e']) 0 3 1 (by decide)⟩

/-! ## Claims about stop_experiment -/

/-- C3 counterexample: with valid inputs, a failing patch result absent and the
delete failing for a reason other than not-found, the code surfaces no
StopFailed error at all, contradicting the claim that a non-not-found delete
failure surfaces as StopFailed. -/
theorem stop_experiment_no_raise_counterexample :
    ((⟨some "patched".data, none, false⟩ : StopEnv).deleteOutput = none ∧
      (⟨some "patched".data, none, false⟩ : StopEnv).deleteNotFound = false) ∧
    StopAction.raiseStopFailed ∉
      stop_experiment "my-exp".data "default".data
        ⟨some "patched".data, none, false⟩ := by
  decide

/-- C3 amended: on validated inputs, stop patches engineState to stop before
deleting the resource; a falsy patch result is only logged at WARN; a falsy
delete result of any kind, not-found included, is also only logged at WARN;
the function never surfaces an error and never exits, so stopping a
nonexistent experiment completes normally. -/
theorem stop_experiment_behavior (rawName rawNs : List Char) (env : StopEnv)
    (name ns : List Char)
    (hn : validate_experiment_name rawName = .ok name)
    (hs : validate_namespace rawNs = .ok ns) :
    (∃ i j, i < j ∧
      (stop_experiment rawName rawNs env).get? i =
        some (.patchEngineStateStop name ns) ∧
      (stop_experiment rawName rawNs env).get? j =
        some (.deleteEngine name ns)) ∧
    (optStrTruthy env.patchOutput = false →
      StopAction.log .warning ∈ stop_experiment rawName rawNs env) ∧
    (optStrTruthy env.deleteOutput = false →
      StopAction.log .warning ∈ stop_experiment rawName rawNs env) ∧
    StopAction.raiseStopFailed ∉ stop_experiment rawName rawNs env ∧
    StopAction.exitProcess ∉ stop_experiment rawName rawNs env := by
  unfold stop_experiment
  rw [hn, hs]
  cases hp : optStrTruthy env.patchOutput <;>
    cases hd : optStrTruthy env.deleteOutput <;>
      simp only [hp, hd, if_true, if_false, Bool.false_eq_true, ite_true,
        ite_false, List.append_assoc, List.cons_append, List.nil_append,
        List.singleton_append]
  · exact ⟨⟨1, 3, by omega, rfl, rfl⟩, by simp, by simp, by simp, by simp⟩
  · exact ⟨⟨1, 3, by omega, rfl, rfl⟩, by simp, by simp, by simp, by simp⟩
  · exact ⟨⟨1, 2, by omega, rfl, rfl⟩, by simp, by simp, by simp, by simp⟩
  · exact ⟨⟨1, 2, by omega, rfl, rfl⟩, by simp, by simp, by simp, by simp⟩

/-- Witness for the amended C3 with both the patch and the delete failing. -/
theorem stop_experiment_behavior_witness :
    (validate_experiment_name "my-app".data = .ok "my-app".data ∧
      validate_namespace "default".data = .ok "default".data) ∧
    ((∃ i j, i < j ∧
      (stop_experiment "my-app".data "default".data ⟨none, none, false⟩).get? i =
        some (.patchEngineStateStop "my-app".data "default".data) ∧
      (stop_experiment "my-app".data "default".data ⟨none, none, false⟩).get? j =
        some (.deleteEngine "my-app".data "default".data)) ∧
    (optStrTruthy (⟨none, none, false⟩ : StopEnv).patchOutput = false →
      StopAction.log .warning ∈
        stop_experiment "my-app".data "default".data ⟨none, none, false⟩) ∧
    (optStrTruthy (⟨none, none, false⟩ : StopEnv).deleteOutput = false →
      StopAction.log .warning ∈
        stop_experiment "my-app".data "default".data ⟨none, none, false⟩) ∧
    StopAction.raiseStopFailed ∉
      stop_experiment "my-app".data "default".data ⟨none, none, false⟩ ∧
    StopAction.exitProcess ∉
      stop_experiment "my-app".data "default".data ⟨none, none, false⟩) :=
  ⟨⟨by rfl, by rfl⟩,
    stop_experiment_behavior "my-app".data "default".data ⟨none, none, false⟩
      "my-app".data "default".data (by rfl) (by rfl)⟩

/-! ## Claims about generate_experiment_report -/

/-- C4 counterexample: with both sub-queries succeeding but the report-file
write failing, generate_experiment_report returns None, contradicting the
claim that it always returns a report object and never returns None. -/
theorem generate_report_none_counterexample :
    generate_experiment_report "t0".data "default".data
      ⟨some (some []), some (some []), false⟩ = none := by
  rfl

/-- C4 amended: for every combination of sub-query outcomes, a failed or
unparseable cluster query never aborts report generation, and a report is
returned whenever the report-file save succeeds; if the save fails the
function returns None. -/
theorem generate_report_total_on_save (ts nsv : List Char) (env : ReportEnv)
    (h : env.saveOk = true) :
    (generate_experiment_report ts nsv env).isSome = true := by
  unfold generate_experiment_report
  simp [h]

/-- Witness for the amended C4 with a failed engines query and an unparseable
pods query. -/
theorem generate_report_total_on_save_witness :
    ((⟨none, some none, true⟩ : ReportEnv).saveOk = true) ∧
    (generate_experiment_report "t0".data "ns0".data
      ⟨none, some none, true⟩).isSome = true :=
  ⟨rfl, generate_report_total_on_save "t0".data "ns0".data
    ⟨none, some none, true⟩ rfl⟩

/-! ## Claim about the CronJob manifest -/

lemma validate_experiment_name_ok {s t : List Char}
    (h : validate_experiment_name s = .ok t) : t = pyStrip s := by
  unfold validate_experiment_name at h
  by_cases h0 : s = []
  · rw [if_pos h0] at h
    exact Except.noConfusion h
  · rw [if_neg h0] at h
    have h1 : (if (pyStrip s).length > K8S_NAME_MAX_LENGTH then
          (Except.error "Experiment name too long" : Except String (List Char))
        else if (!k8sNameMatch (pyStrip s)) = true then
          Except.error "Experiment name format invalid"
        else Except.ok (pyStrip s)) = Except.ok t := h
    split_ifs at h1
    all_goals
      first
        | exact Except.noConfusion h1
        | (injection h1 with h2; exact h2.symm)

/-- C9: whenever create_scheduled_experiment accepts its inputs, the built
CronJob manifest has metadata.name equal to chaos- followed by the validated
experiment name, concurrencyPolicy Forbid, and the supplied cron string as
spec.schedule verbatim. -/
theorem create_scheduled_manifest_fields (en sched ns y : List Char)
    (m : CronJobManifest)
    (h : create_scheduled_experiment en sched ns y = some m) :
    m.metadata.name = "chaos-".data ++ pyStrip en ∧
      m.spec.concurrencyPolicy = "Forbid".data ∧
      m.spec.schedule = sched := by
  unfold create_scheduled_experiment at h
  cases hv : validate_experiment_name en with
  | error e => simp [hv] at h
  | ok name =>
      cases hw : validate_namespace ns with
      | error e => simp [hv, hw] at h
      | ok nsv =>
          simp only [hv, hw] at h
          by_cases hc : validate_cron_schedule sched = true
          · rw [if_pos hc] at h
            injection h with h2
            subst h2
            refine ⟨?_, rfl, rfl⟩
            show "chaos-".data ++ name = "chaos-".data ++ pyStrip en
            rw [validate_experiment_name_ok hv]
          · simp [hc] at h

/-- Witness for C9 at a concrete scheduled experiment. -/
theorem create_scheduled_manifest_fields_witness :
    (create_scheduled_experiment "pod-delete".data "0 2 * * *".data
        "default".data "yaml0".data =
      some (createCronjobManifest "pod-delete".data "0 2 * * *".data
        "yaml0".data "default".data)) ∧
    ((createCronjobManifest "pod-delete".data "0 2 * * *".data
        "yaml0".data "default".data).metadata.name =
      "chaos-".data ++ pyStrip "pod-delete".data ∧
    (createCronjobManifest "pod-delete".data "0 2 * * *".data
        "yaml0".data "default".data).spec.concurrencyPolicy = "Forbid".data ∧
    (createCronjobManifest "pod-delete".data "0 2 * * *".data
        "yaml0".data "default".data).spec.schedule = "0 2 * * *".data) :=
  ⟨by rfl,
    create_scheduled_manifest_fields "pod-delete".data "0 2 * * *".data
      "default".data "yaml0".data _ (by rfl)⟩
